import Mathlib

/-!
Verification development for the NHL ADP projection model.

The Python source is shallowly embedded over exact rationals (`ℚ` models the
float arithmetic on the exact decimal constants involved) and `Option`
(`none` models Python `None` / pandas `NaN`, i.e. an absent value).
Strings are modelled by Lean `String`; the regex pipeline of the name
normalizer is translated step by step into structurally recursive
character-list transformations.

The file is organised as definitions first (the embedding), then theorems.
-/

namespace AdpNhl

/-! ## Definitions -/

/-! ### Constants (CONFIG section of `main.py` and `adp_nhl/utils/nst.py`) -/

/-- `LEAGUE_AVG_SV = 0.905`. -/
def LEAGUE_AVG_SV : ℚ := 181/200

/-- `GOALIE_SKATER_DAMPEN_MAX = 0.10`. -/
def GOALIE_SKATER_DAMPEN_MAX : ℚ := 1/10

/-- `GOALIE_SKATER_DAMPEN_WEIGHT = 0.25`. -/
def GOALIE_SKATER_DAMPEN_WEIGHT : ℚ := 1/4

/-- `GOALIE_TOI_MIN = 60.0`. -/
def GOALIE_TOI_MIN : ℚ := 60

/-- `FALLBACK_SF60 = 31.0`. -/
def FALLBACK_SF60 : ℚ := 31

/-- `FALLBACK_xGF60 = 2.95`. -/
def FALLBACK_xGF60 : ℚ := 59/20

/-- `FALLBACK_CA60 = 58.0` (from `adp_nhl/utils/nst.py`). -/
def FALLBACK_CA60 : ℚ := 58

/-- `FALLBACK_xGA60 = 2.65` (from `adp_nhl/utils/nst.py`). -/
def FALLBACK_xGA60 : ℚ := 53/20

/-! ### Multi-window blender

`blend_three_layer` from `adp_nhl/utils/nst.py` (the copy in `main.py` is
identical up to parameter names).  A `pd.isna` input is an absent value,
modelled by `none`.  The accumulation `num += w*v; den += w` per present
input and the final `num/den if den>0 else None` are translated directly. -/

/-- `blend_three_layer(recent, mid, last, w_recent, w_mid, w_last)`:
weighted average over the present inputs; `None` if all are absent or the
accumulated weight is not positive. -/
def blend_three_layer (recent mid last : Option ℚ) (w_recent w_mid w_last : ℚ) :
    Option ℚ :=
  if recent = none ∧ mid = none ∧ last = none then none
  else
    let num := (match recent with | some v => w_recent * v | none => 0)
             + (match mid with | some v => w_mid * v | none => 0)
             + (match last with | some v => w_last * v | none => 0)
    let den := (match recent with | some _ => w_recent | none => 0)
             + (match mid with | some _ => w_mid | none => 0)
             + (match last with | some _ => w_last | none => 0)
    if 0 < den then some (num / den) else none

/-- `blend_three_layer` with its default weights `0.50 / 0.35 / 0.15`. -/
def blend_default (recent mid last : Option ℚ) : Option ℚ :=
  blend_three_layer recent mid last (1/2) (7/20) (3/20)

/-- The list of present (non-`NaN`) window values, in positional order. -/
def presentVals (recent mid last : Option ℚ) : List ℚ :=
  [recent, mid, last].filterMap id

/-! ### Name normalizer

`norm_name` from `adp_nhl/utils/common.py`:
```
s = re.sub(r"[–—’]", "-", str(s))
s = re.sub(r"[^A-Za-z0-9\-\' ]+", " ", s)
s = re.sub(r"\s+", " ", s).strip().upper()
if "," in s:
    parts = [p.strip() for p in s.split(",")]
    if len(parts) == 2:
        s = f"{parts[1]} {parts[0]}".strip()
return s
```
Each `re.sub` is translated into a structurally recursive pass over the
character list; a `+`-quantified character class replaces each maximal run
by a single space, which the boolean accumulator (`inRun`) implements. -/

/-- Replaces the typographic dash/apostrophe characters U+2013, U+2014 and
U+2019 by an ASCII dash (`re.sub(r"[–—’]", "-", s)`). -/
def replaceDashes (c : Char) : Char :=
  if c = '–' ∨ c = '—' ∨ c = '’' then '-' else c

/-- Characters kept by the class `[A-Za-z0-9\-\' ]`. -/
def isAllowedChar (c : Char) : Bool :=
  c.isAlphanum || c = '-' || c = '\'' || c = ' '

/-- `re.sub(r"[^A-Za-z0-9\-\' ]+", " ", s)`: each maximal run of disallowed
characters becomes a single space. -/
def squashDisallowed : Bool → List Char → List Char
  | _, [] => []
  | inRun, c :: rest =>
    if isAllowedChar c then c :: squashDisallowed false rest
    else if inRun then squashDisallowed true rest
    else ' ' :: squashDisallowed true rest

/-- `re.sub(r"\s+", " ", s)`: each maximal whitespace run becomes a single
space. -/
def collapseSpaces : Bool → List Char → List Char
  | _, [] => []
  | inRun, c :: rest =>
    if c.isWhitespace then
      if inRun then collapseSpaces true rest
      else ' ' :: collapseSpaces true rest
    else c :: collapseSpaces false rest

/-- Python `str.strip()`: drop leading and trailing whitespace. -/
def stripInner (l : List Char) : List Char :=
  ((l.dropWhile Char.isWhitespace).reverse.dropWhile Char.isWhitespace).reverse

/-- The three `re.sub` steps plus `.strip().upper()`; this is also the whole
of `norm_name` in `main.py`, which has no comma branch. -/
def normCore (s : String) : String :=
  let l1 := s.data.map replaceDashes
  let l2 := squashDisallowed false l1
  let l3 := collapseSpaces false l2
  String.mk ((stripInner l3).map Char.toUpper)

/-- Python `str.split(sep)` for a one-character separator: `"a,b"` splits to
`["a", "b"]` and the empty string splits to `[""]`. -/
def splitOnChar (sep : Char) : List Char → List (List Char)
  | [] => [[]]
  | c :: rest =>
    let r := splitOnChar sep rest
    if c = sep then [] :: r
    else
      match r with
      | [] => [[c]]
      | h :: t => (c :: h) :: t

/-- `norm_name` from `adp_nhl/utils/common.py`: `normCore` followed by the
"Last, First" comma branch (`if "," in s: parts = [p.strip() for p in
s.split(",")]; if len(parts) == 2: s = f"{parts[1]} {parts[0]}".strip()`). -/
def norm_name (s : String) : String :=
  let t := normCore s
  if t.data.contains ',' then
    let parts := (splitOnChar ',' t.data).map stripInner
    if parts.length = 2 then
      String.mk (stripInner ((parts.getD 1 []) ++ [' '] ++ (parts.getD 0 [])))
    else t
  else t

/-! ### Light goalie dampener (`main.py`) -/

/-- `clamp(val, lo, hi) = max(lo, min(hi, val))`. -/
def clamp (val lo hi : ℚ) : ℚ := max lo (min hi val)

/-- `light_goalie_dampener(weighted_sv)`: `0.0` for `NaN` (`none`),
non-positive or `≥ 1` inputs, otherwise `(LEAGUE_AVG_SV - sv) * 0.25`
clamped to `±GOALIE_SKATER_DAMPEN_MAX`. -/
def light_goalie_dampener (weighted_sv : Option ℚ) : ℚ :=
  match weighted_sv with
  | none => 0
  | some v =>
    if v ≤ 0 ∨ 1 ≤ v then 0
    else clamp ((LEAGUE_AVG_SV - v) * GOALIE_SKATER_DAMPEN_WEIGHT)
      (-GOALIE_SKATER_DAMPEN_MAX) GOALIE_SKATER_DAMPEN_MAX

/-! ### Role-based fallbacks (`SETTINGS` and `backfill_rates` in `main.py`) -/

/-- A per-role fallback table (`SETTINGS["F_fallback"]` /
`SETTINGS["D_fallback"]`), keyed by metric name. -/
structure FallbackTable where
  g60 : ℚ
  a60 : ℚ
  sog60 : ℚ
  blk60 : ℚ
deriving DecidableEq

/-- `SETTINGS["F_fallback"] = {"G60": 0.45, "A60": 0.80, "SOG60": 5.0, "BLK60": 1.0}`. -/
def F_fallback : FallbackTable := ⟨9/20, 4/5, 5, 1⟩

/-- `SETTINGS["D_fallback"] = {"G60": 0.20, "A60": 0.70, "SOG60": 3.2, "BLK60": 4.0}`. -/
def D_fallback : FallbackTable := ⟨1/5, 7/10, 16/5, 4⟩

/-- `guess_role_from_pos`: `"G"` if the upper-cased position contains `G`,
else `"D"` if it contains `D`, else `"F"` (upper-casing written on the
character list so that it evaluates inside the kernel). -/
def guess_role_from_pos (pos : String) : String :=
  let p := pos.data.map Char.toUpper
  if p.contains 'G' then "G"
  else if p.contains 'D' then "D"
  else "F"

/-- The fallback table picked inside `backfill_rates`:
`base = SETTINGS["D_fallback"] if role=="D" else SETTINGS["F_fallback"]`. -/
def backfill_base (position : String) : FallbackTable :=
  if guess_role_from_pos position = "D" then D_fallback else F_fallback

/-- `backfill_rates` from `build_projections`: each of the four rates keeps
its blended value when present (`pd.notna`) and otherwise takes the
role-based fallback constant for that metric. -/
def backfill_rates (position : String) (g60 a60 sog60 blk60 : Option ℚ) :
    ℚ × ℚ × ℚ × ℚ :=
  let base := backfill_base position
  (g60.getD base.g60, a60.getD base.a60, sog60.getD base.sog60,
   blk60.getD base.blk60)

/-! ### Value/efficiency score (`build_projections`, `main.py`)

`salary = pd.to_numeric(sk["DK Salary"], errors="coerce")` yields `NaN`
(`none`) for unparseable entries; `sk["DFS Value Score"] =
(Projected DK Points / salary.replace(0, math.nan)) * 1000.0` maps an exact
zero salary to `NaN` before dividing, and division by `NaN` propagates
`NaN`; a `NaN` cell in a pandas float column is the absent value. -/

/-- The `DFS Value Score` computation for one entity. -/
def dfs_value_score (points : ℚ) (salary : Option ℚ) : Option ℚ :=
  match salary with
  | none => none
  | some s => if s = 0 then none else some (points / s * 1000)

/-! ### Goalie projections (`build_goalie_projections`, `main.py`)

With the opponent mapping not wired, the code uses the neutral proxies
`Opp_SF60 = FALLBACK_SF60 = 31.0` and `Opp_xGF60 = FALLBACK_xGF60 = 2.95`:
```
gk["Proj Saves"] = gk["Opp_SF60"] * (GOALIE_TOI_MIN/60.0) * gk["Weighted_SV"]
gk["Proj GA"]    = gk["Opp_xGF60"]* (GOALIE_TOI_MIN/60.0) * (1.0 - gk["Weighted_SV"])
gk["DK Points"]  = gk["Proj Saves"]*0.7 - gk["Proj GA"]*3.5
```
-/

/-- `(Proj Saves, Proj GA, DK Points)` for a goalie with blended save
fraction `weighted_sv`. -/
def goalie_projection (weighted_sv : ℚ) : ℚ × ℚ × ℚ :=
  let saves := FALLBACK_SF60 * (GOALIE_TOI_MIN / 60) * weighted_sv
  let ga := FALLBACK_xGF60 * (GOALIE_TOI_MIN / 60) * (1 - weighted_sv)
  (saves, ga, saves * (7/10) - ga * (7/2))

/-- `Weighted_SV` after the merge: the three-layer blended save fraction
when the goalie is in the NST table, else `LEAGUE_AVG_SV`
(`gk["Weighted_SV"].fillna(LEAGUE_AVG_SV)`). -/
def goalie_weighted_sv (sv_lookup : Option ℚ) : ℚ :=
  sv_lookup.getD LEAGUE_AVG_SV

/-! ### Team-level stats extraction (`get_team_stats`, `adp_nhl/utils/nst.py`)

Each table row yields `num(label)` parse results (a non-negative decimal or
`None`); the stored metric is `num(label) or FALLBACK`, Python's truthy
coalescing, under which both `None` and `0.0` are replaced by the
fallback constant. -/

/-- Python `x or fb` for `x : float | None`: `None` and `0.0` are falsy. -/
def pyOr (x : Option ℚ) (fb : ℚ) : ℚ :=
  match x with
  | none => fb
  | some v => if v = 0 then fb else v

/-- One stored team row of `get_team_stats`. -/
structure TeamStatsRow where
  team : String
  ca60 : ℚ
  xga60 : ℚ
  sf60 : ℚ
  xgf60 : ℚ
deriving DecidableEq

/-- The row constructed by `get_team_stats` from the four parse results. -/
def team_stats_row (abbr : String) (ca xga sf xgf : Option ℚ) : TeamStatsRow :=
  ⟨abbr, pyOr ca FALLBACK_CA60, pyOr xga FALLBACK_xGA60,
   pyOr sf FALLBACK_SF60, pyOr xgf FALLBACK_xGF60⟩

/-! ### Player table extractor (`_parse_nst_player_rows`, `adp_nhl/utils/nst.py`)

The regex work per `<tr>` row is represented by its outcome: `anchor` is the
text of the player link when the row has one (`None` makes the loop `continue`)
and the ten `pick_num` results are the parsed per-60 columns.  The loop
appends one output record per anchored row, in input order. -/

/-- The per-row regex extraction results for one `<tr>` of the NST player
table. -/
structure RawPlayerRow where
  anchor : Option String
  g60 : Option ℚ
  a60 : Option ℚ
  sog60 : Option ℚ
  blk60 : Option ℚ
  cf60 : Option ℚ
  ca60 : Option ℚ
  xgf60 : Option ℚ
  xga60 : Option ℚ
  hdcf60 : Option ℚ
  hdca60 : Option ℚ
deriving DecidableEq

/-- One output record of `_parse_nst_player_rows`. -/
structure PlayerStatsRow where
  playerRaw : String
  normName : String
  g60 : Option ℚ
  a60 : Option ℚ
  sog60 : Option ℚ
  blk60 : Option ℚ
  cf60 : Option ℚ
  ca60 : Option ℚ
  xgf60 : Option ℚ
  xga60 : Option ℚ
  hdcf60 : Option ℚ
  hdca60 : Option ℚ
deriving DecidableEq

/-- Python `str.strip()` on a string. -/
def pyStrip (s : String) : String := String.mk (stripInner s.data)

/-- `_parse_nst_player_rows`: skip rows without a player anchor, emit one
record per remaining row (`out.append({...})`), in input order. -/
def parse_nst_player_rows (rows : List RawPlayerRow) : List PlayerStatsRow :=
  rows.filterMap fun row =>
    match row.anchor with
    | none => none
    | some pname =>
      let p := pyStrip pname
      some ⟨p, norm_name p, row.g60, row.a60, row.sog60, row.blk60,
        row.cf60, row.ca60, row.xgf60, row.xga60, row.hdcf60, row.hdca60⟩

/-! ### Reconciliation of DK roster rows with blended stat rows
(`build_projections`, `main.py`)

The identity flow of the skater branch: an empty DK table returns empty
outputs immediately; otherwise goalie rows are removed
(`~dk["Position"].str.contains("G", case=False)`) and the blended NST rows
are attached by a *left* merge on `PlayerKey = f"{Team}_{norm_name(Name)}"`.
The line-assignment inputs are taken empty here (the code's `else` branch,
which adds constant columns and no rows).  A left merge emits one row per
left row when it has no match and one row per matching right row
otherwise. -/

/-- One row of the DraftKings salary table after column renaming. -/
structure DkRow where
  name : String
  team : String
  position : String
  salary : Option ℚ
deriving DecidableEq

/-- One blended per-60 stat row from `fetch_nst_player_stats_multi`. -/
structure NstBlendedRow where
  team : String
  player : String
  g60 : Option ℚ
  a60 : Option ℚ
  sog60 : Option ℚ
  blk60 : Option ℚ
deriving DecidableEq

/-- `PlayerKey` for a DK row: `f"{Team}_{norm_name(Name)}"`. -/
def dkPlayerKey (r : DkRow) : String := r.team ++ "_" ++ norm_name r.name

/-- `PlayerKey`/`NameKey` for a blended stat row. -/
def nstPlayerKey (r : NstBlendedRow) : String :=
  r.team ++ "_" ++ norm_name r.player

/-- `Position.str.contains("G", case=False)`: upper-case the position and
look for `G` (upper-casing written on the character list so that it
evaluates inside the kernel). -/
def positionIsGoalie (p : String) : Bool :=
  (p.data.map Char.toUpper).contains 'G'

/-- The skater rows of `build_projections`: empty-DK early return, goalie
filter, then the left merge with the blended NST rows. -/
def build_projections_skaters (dk : List DkRow) (nst : List NstBlendedRow) :
    List (DkRow × Option NstBlendedRow) :=
  if dk.isEmpty then []
  else
    (dk.filter (fun r => !(positionIsGoalie r.position))).flatMap fun r =>
      let ms := nst.filter (fun n => decide (nstPlayerKey n = dkPlayerKey r))
      if ms.isEmpty then [(r, none)] else ms.map (fun n => (r, some n))

/-! ## Theorems -/

/-- C1: the multi-window blender is the weighted average over exactly the
present inputs with weights 0.50/0.35/0.15 renormalized over the present
ones: all eight presence combinations produce the drop-and-renormalize
average (absent inputs contribute to neither numerator nor denominator),
and in particular `blend(1,2,3) = 1.65`, `blend(None, 2, None) = 2`,
`blend(None, None, None) = None`. -/
theorem blend_three_layer_weighted_average :
    blend_default none none none = none ∧
    blend_default none (some 2) none = some 2 ∧
    blend_default (some 1) (some 2) (some 3) = some (165/100) ∧
    (∀ a b c : ℚ,
      blend_default (some a) (some b) (some c)
        = some ((1/2) * a + (7/20) * b + (3/20) * c) ∧
      blend_default (some a) (some b) none
        = some (((1/2) * a + (7/20) * b) / (1/2 + 7/20)) ∧
      blend_default (some a) none (some c)
        = some (((1/2) * a + (3/20) * c) / (1/2 + 3/20)) ∧
      blend_default none (some b) (some c)
        = some (((7/20) * b + (3/20) * c) / (7/20 + 3/20)) ∧
      blend_default (some a) none none = some a ∧
      blend_default none (some b) none = some b ∧
      blend_default none none (some c) = some c) := by
  refine ⟨rfl, ?_, ?_, ?_⟩
  · simp [blend_default, blend_three_layer]
  · simp [blend_default, blend_three_layer]
    norm_num
  · intro a b c
    refine ⟨?_, ?_, ?_, ?_, ?_, ?_, ?_⟩ <;>
      · simp [blend_default, blend_three_layer]
        try norm_num
        try ring_nf

/-- C2 counterexample: a run with one rostered skater and two blended stat
rows that match no roster entity (all `PlayerKey`s non-empty) produces one
output entity, strictly fewer than the two stat-only rows — the unmatched
stat rows are silently dropped, not retained as standalone entities. -/
theorem build_projections_drops_unmatched_stat_rows :
    ((build_projections_skaters
        [⟨"Connor Guy", "BOS", "C", some 5000⟩]
        [⟨"BOS", "Alpha Person", some 1, none, none, none⟩,
         ⟨"BOS", "Beta Person", some 2, none, none, none⟩]).length = 1) ∧
    (([(⟨"BOS", "Alpha Person", some 1, none, none, none⟩ : NstBlendedRow),
       ⟨"BOS", "Beta Person", some 2, none, none, none⟩].filter fun n =>
        ([(⟨"Connor Guy", "BOS", "C", some 5000⟩ : DkRow)].all fun r =>
            decide (dkPlayerKey r ≠ nstPlayerKey n))
          && decide (nstPlayerKey n ≠ "")).length
      = 2) ∧
    ¬ (1 ≥ 2) := by
  refine ⟨?_, ?_, by norm_num⟩ <;> decide

/-- C2 amended: every output entity of the skater reconciliation is one of
the DK roster's non-goalie rows — a stats row whose join key matches no
roster entity contributes no output entity (it is dropped, together with
all stat rows when the roster table is empty). -/
theorem build_projections_entities_from_roster (dk : List DkRow)
    (nst : List NstBlendedRow) (e : DkRow × Option NstBlendedRow)
    (he : e ∈ build_projections_skaters dk nst) :
    e.1 ∈ dk ∧ positionIsGoalie e.1.position = false := by
  unfold build_projections_skaters at he
  split at he
  · simp at he
  · rw [List.mem_flatMap] at he
    obtain ⟨r, hr, hfr⟩ := he
    obtain ⟨hrdk, hrpos⟩ := List.mem_filter.mp hr
    have he1 : e.1 = r := by
      by_cases hms :
          (nst.filter (fun n => decide (nstPlayerKey n = dkPlayerKey r))).isEmpty
      · rw [if_pos hms] at hfr
        simp at hfr
        rw [hfr]
      · rw [if_neg hms] at hfr
        obtain ⟨n, _, hn⟩ := List.mem_map.mp hfr
        rw [← hn]
    rw [he1]
    refine ⟨hrdk, ?_⟩
    simpa using hrpos

/-- Witness for `build_projections_entities_from_roster`: the single output
entity of the counterexample run is the rostered skater. -/
theorem build_projections_entities_from_roster_witness :
    (⟨"Connor Guy", "BOS", "C", some 5000⟩ : DkRow)
      ∈ [(⟨"Connor Guy", "BOS", "C", some 5000⟩ : DkRow)] ∧
    positionIsGoalie "C" = false :=
  build_projections_entities_from_roster
    [⟨"Connor Guy", "BOS", "C", some 5000⟩]
    [⟨"BOS", "Alpha Person", some 1, none, none, none⟩]
    (⟨"Connor Guy", "BOS", "C", some 5000⟩, none) (by decide)

/-- C3 counterexample: at the claim's scenario `sv = 0.905`,
`opponentShotRate = 31.0`, the code's projected goals against is
`2.95 × (1 − 0.905) = 0.28025`, not the claimed `31.0 × (1 − 0.905) =
2.945`, and its points are `18.657625`, not the claimed `9.331`: goals
against is driven by the expected-goals rate `Opp_xGF60 = 2.95`, not by
the opponent shot rate. -/
theorem goalie_projection_ga_counterexample :
    (goalie_projection (181/200)).1 = 5611/200 ∧
    (goalie_projection (181/200)).2.1 = 1121/4000 ∧
    (goalie_projection (181/200)).2.1 ≠ 2945/1000 ∧
    (goalie_projection (181/200)).2.2 = 149261/8000 ∧
    (goalie_projection (181/200)).2.2 ≠ 9331/1000 := by
  refine ⟨?_, ?_, ?_, ?_, ?_⟩ <;>
    norm_num [goalie_projection, FALLBACK_SF60, FALLBACK_xGF60, GOALIE_TOI_MIN]

/-- C3 amended: `projectedSaves = opponentShotRate × sv` (shot rate 31.0),
but `projectedGoalsAgainst = opponentExpectedGoalsRate × (1 − sv)` with the
expected-goals proxy `2.95`; `points = saves × 0.7 + GA × (−3.5)` with the
negative goals-against weight; the scenario `sv = 0.905` yields
`saves = 28.055`, `GA = 0.28025`, `points = 18.657625`. -/
theorem goalie_projection_formulas (sv : ℚ) :
    (goalie_projection sv).1 = 31 * sv ∧
    (goalie_projection sv).2.1 = (59/20) * (1 - sv) ∧
    (goalie_projection sv).2.2 =
      (goalie_projection sv).1 * (7/10) +
      (goalie_projection sv).2.1 * (-(7/2)) ∧
    (-(7/2) : ℚ) < 0 ∧
    goalie_weighted_sv none = LEAGUE_AVG_SV := by
  refine ⟨?_, ?_, ?_, by norm_num, rfl⟩ <;>
    · simp [goalie_projection, FALLBACK_SF60, FALLBACK_xGF60, GOALIE_TOI_MIN]
      try ring

/-- C4: evaluation of the normalizer at the spec's own example.  The comma
is removed by the punctuation substitution *before* the "Last, First" check,
so the reorder branch never fires: `norm_name "Crosby, Sidney"` yields
`"CROSBY SIDNEY"`, which differs from `norm_name "Sidney Crosby" =
"SIDNEY CROSBY"`, contradicting the function's own docstring
("Converts Last, First -> First Last") and the spec. -/
theorem norm_name_comma_branch_dead :
    norm_name "Crosby, Sidney" = "CROSBY SIDNEY" ∧
    norm_name "Sidney Crosby" = "SIDNEY CROSBY" ∧
    (normCore "Crosby, Sidney").data.contains ',' = false ∧
    norm_name "Crosby, Sidney" ≠ norm_name "Sidney Crosby" := by
  refine ⟨?_, ?_, ?_, ?_⟩ <;> decide

/-- C5 counterexample: for a present but negative salary (which the claim
says must yield an absent score, `salary <= 0`), the code computes a
(negative) value score: `dfs_value_score 10 (some (-5000)) = some (-2)`. -/
theorem dfs_value_score_negative_salary :
    (-5000 : ℚ) ≤ 0 ∧
    dfs_value_score 10 (some (-5000)) = some (-2) ∧
    dfs_value_score 10 (some (-5000)) ≠ none := by
  refine ⟨by norm_num, ?_, ?_⟩
  · norm_num [dfs_value_score]
  · norm_num [dfs_value_score]
    simp

/-- C5 amended: the value score is absent exactly when the salary is absent
or exactly zero; for every present non-zero salary (positive or negative)
it equals `points / (salary / 1000)`, so the division is never performed
with a zero divisor. -/
theorem dfs_value_score_absent_iff (points : ℚ) (salary : Option ℚ) :
    (dfs_value_score points salary = none ↔
      salary = none ∨ salary = some 0) ∧
    (∀ s, salary = some s → s ≠ 0 →
      dfs_value_score points salary = some (points / (s / 1000))) := by
  constructor
  · rcases salary with _ | s
    · simp [dfs_value_score]
    · by_cases h : s = 0 <;> simp [dfs_value_score, h]
  · intro s hs h0
    subst hs
    simp only [dfs_value_score, if_neg h0]
    congr 1
    field_simp

/-- Witness for `dfs_value_score_absent_iff` at `points = 10`,
`salary = 8000`. -/
theorem dfs_value_score_absent_iff_witness :
    dfs_value_score 10 (some 8000) = some (10 / (8000 / 1000)) :=
  (dfs_value_score_absent_iff 10 (some 8000)).2 8000 rfl (by norm_num)

/-- C6: the blender is absent iff all three window inputs are absent, and in
that case `backfill_rates` substitutes the role-based fallback constant
(keyed by forward-vs-defense role and metric name) — never zero; present
blended rates are passed through unchanged. -/
theorem blend_none_iff_all_absent_and_role_fallback :
    (∀ r m l, blend_default r m l = none ↔ (r = none ∧ m = none ∧ l = none)) ∧
    (∀ pos, backfill_rates pos none none none none =
      ((backfill_base pos).g60, (backfill_base pos).a60,
       (backfill_base pos).sog60, (backfill_base pos).blk60)) ∧
    (∀ pos g a s b, backfill_rates pos (some g) (some a) (some s) (some b)
      = (g, a, s, b)) ∧
    (∀ pos, (backfill_base pos).g60 ≠ 0 ∧ (backfill_base pos).a60 ≠ 0 ∧
      (backfill_base pos).sog60 ≠ 0 ∧ (backfill_base pos).blk60 ≠ 0) := by
  refine ⟨?_, ?_, ?_, ?_⟩
  · intro r m l
    constructor
    · intro h
      by_contra hc
      rcases r with _ | a
      · rcases m with _ | b
        · rcases l with _ | c
          · exact hc ⟨rfl, rfl, rfl⟩
          · simp [blend_default, blend_three_layer] at h
        · simp [blend_default, blend_three_layer] at h
          rcases l with _ | c <;> norm_num at h
      · simp [blend_default, blend_three_layer] at h
        rcases m with _ | b <;> rcases l with _ | c <;> norm_num at h
    · rintro ⟨hr, hm, hl⟩
      subst hr; subst hm; subst hl; rfl
  · intro pos; rfl
  · intro pos g a s b; rfl
  · intro pos
    unfold backfill_base
    split_ifs <;> refine ⟨?_, ?_, ?_, ?_⟩ <;> norm_num [D_fallback, F_fallback]

/-- C7 counterexample: a successfully parsed `CA/60` value of exactly `0`
is replaced by the league fallback `58.0` — measured zero is conflated
with "unknown" — and a missing parse is stored as the fallback constant
rather than left absent. -/
theorem team_stats_zero_replaced_by_fallback :
    (team_stats_row "BOS" (some 0) none none none).ca60 = 58 ∧
    (team_stats_row "BOS" (some 0) none none none).ca60 ≠ 0 ∧
    (team_stats_row "BOS" none none none none).xga60 = 53/20 := by
  refine ⟨rfl, ?_, rfl⟩
  norm_num [team_stats_row, pyOr, FALLBACK_CA60]

/-- C7 amended: the stored team metric is the parsed value only when that
value is non-zero; a missing parse **and** a parsed zero are both stored as
the (non-zero, never absent) fallback constant. -/
theorem team_stats_row_stored_values (abbr : String) (v : ℚ)
    (xga sf xgf : Option ℚ) (hv : v ≠ 0) :
    (team_stats_row abbr (some v) xga sf xgf).ca60 = v ∧
    (team_stats_row abbr (some 0) xga sf xgf).ca60 = FALLBACK_CA60 ∧
    (team_stats_row abbr none xga sf xgf).ca60 = FALLBACK_CA60 ∧
    FALLBACK_CA60 ≠ 0 := by
  refine ⟨?_, ?_, rfl, by norm_num [FALLBACK_CA60]⟩
  · simp [team_stats_row, pyOr, hv]
  · simp [team_stats_row, pyOr]

/-- Witness for `team_stats_row_stored_values` at `v = 61.3`. -/
theorem team_stats_row_stored_values_witness :
    (team_stats_row "BOS" (some (613/10)) none none none).ca60 = 613/10 :=
  (team_stats_row_stored_values "BOS" (613/10) none none none
    (by norm_num)).1

/-- C8 counterexample: a raw table with two rows for the same player (the
call is per team, so same name means same `(name, team)` pair) yields an
output containing both rows — no deduplication happens, so neither "no
duplicate `(name, team)` pairs" nor "first occurrence wins" holds. -/
theorem parse_player_rows_keeps_duplicates :
    ((parse_nst_player_rows
        [⟨some "Joe Thornton", some 1, none, none, none, none, none, none,
            none, none, none⟩,
         ⟨some "Joe Thornton", some 2, none, none, none, none, none, none,
            none, none, none⟩]).map PlayerStatsRow.playerRaw)
      = ["Joe Thornton", "Joe Thornton"] ∧
    ¬ ((parse_nst_player_rows
        [⟨some "Joe Thornton", some 1, none, none, none, none, none, none,
            none, none, none⟩,
         ⟨some "Joe Thornton", some 2, none, none, none, none, none, none,
            none, none, none⟩]).map PlayerStatsRow.playerRaw).Nodup ∧
    (parse_nst_player_rows
        [⟨some "Joe Thornton", some 1, none, none, none, none, none, none,
            none, none, none⟩,
         ⟨some "Joe Thornton", some 2, none, none, none, none, none, none,
            none, none, none⟩]).length = 2 := by
  refine ⟨?_, ?_, ?_⟩ <;> decide

/-- C8 amended: the extractor is stable and order-preserving but performs no
deduplication — it emits exactly one record per anchored input row, in input
order, with the stripped anchor text as the name; duplicate `(name, team)`
pairs in the raw table are therefore preserved in the output. -/
theorem parse_player_rows_order_preserving (rows : List RawPlayerRow) :
    (parse_nst_player_rows rows).map PlayerStatsRow.playerRaw
      = (rows.filterMap RawPlayerRow.anchor).map pyStrip ∧
    (parse_nst_player_rows rows).length
      = (rows.filterMap RawPlayerRow.anchor).length := by
  induction rows with
  | nil => exact ⟨rfl, rfl⟩
  | cons r rest ih =>
    rcases r with ⟨_ | a, g, as, s, b, cf, ca, xgf, xga, hdcf, hdca⟩ <;>
      simpa [parse_nst_player_rows, List.filterMap_cons] using ih

/-- C9: under the default non-negative weights, a non-`None` blend lies
between any lower bound and any upper bound of the present window values —
the blend is a convex combination of the present inputs and never
extrapolates outside their range. -/
theorem blend_default_convex (r m l : Option ℚ) (x lo hi : ℚ)
    (hx : blend_default r m l = some x)
    (hlo : ∀ v ∈ presentVals r m l, lo ≤ v)
    (hhi : ∀ v ∈ presentVals r m l, v ≤ hi) :
    lo ≤ x ∧ x ≤ hi := by
  rcases r with _ | a <;> rcases m with _ | b <;> rcases l with _ | c
  · simp [blend_default, blend_three_layer] at hx
  · have h1 := hlo c (by simp [presentVals])
    have h2 := hhi c (by simp [presentVals])
    norm_num [blend_default, blend_three_layer] at hx
    constructor <;> linarith
  · have h1 := hlo b (by simp [presentVals])
    have h2 := hhi b (by simp [presentVals])
    norm_num [blend_default, blend_three_layer] at hx
    constructor <;> linarith
  · have h1 := hlo b (by simp [presentVals])
    have h2 := hhi b (by simp [presentVals])
    have h3 := hlo c (by simp [presentVals])
    have h4 := hhi c (by simp [presentVals])
    norm_num [blend_default, blend_three_layer] at hx
    constructor <;> linarith
  · have h1 := hlo a (by simp [presentVals])
    have h2 := hhi a (by simp [presentVals])
    norm_num [blend_default, blend_three_layer] at hx
    constructor <;> linarith
  · have h1 := hlo a (by simp [presentVals])
    have h2 := hhi a (by simp [presentVals])
    have h3 := hlo c (by simp [presentVals])
    have h4 := hhi c (by simp [presentVals])
    norm_num [blend_default, blend_three_layer] at hx
    constructor <;> linarith
  · have h1 := hlo a (by simp [presentVals])
    have h2 := hhi a (by simp [presentVals])
    have h3 := hlo b (by simp [presentVals])
    have h4 := hhi b (by simp [presentVals])
    norm_num [blend_default, blend_three_layer] at hx
    constructor <;> linarith
  · have h1 := hlo a (by simp [presentVals])
    have h2 := hhi a (by simp [presentVals])
    have h3 := hlo b (by simp [presentVals])
    have h4 := hhi b (by simp [presentVals])
    have h5 := hlo c (by simp [presentVals])
    have h6 := hhi c (by simp [presentVals])
    norm_num [blend_default, blend_three_layer] at hx
    constructor <;> linarith

/-- Witness for `blend_default_convex` at `blend(1, 2, 3) = 1.65 ∈ [1, 3]`. -/
theorem blend_default_convex_witness : (1:ℚ) ≤ 33/20 ∧ (33/20:ℚ) ≤ 3 :=
  blend_default_convex (some 1) (some 2) (some 3) (33/20) 1 3
    (by simp [blend_default, blend_three_layer]; norm_num) (by decide) (by decide)

/-- C10: the dampener never exceeds `GOALIE_SKATER_DAMPEN_MAX = 0.10` in
absolute value, is exactly `0` for `NaN`, `sv ≤ 0` or `sv ≥ 1`, and the
skater dampening factor `1 + dampener` always lies in `[0.90, 1.10]`. -/
theorem light_goalie_dampener_bounded (weighted_sv : Option ℚ) :
    |light_goalie_dampener weighted_sv| ≤ GOALIE_SKATER_DAMPEN_MAX ∧
    (weighted_sv = none → light_goalie_dampener weighted_sv = 0) ∧
    (∀ v, weighted_sv = some v → v ≤ 0 ∨ 1 ≤ v →
      light_goalie_dampener weighted_sv = 0) ∧
    9/10 ≤ 1 + light_goalie_dampener weighted_sv ∧
    1 + light_goalie_dampener weighted_sv ≤ 11/10 := by
  have hmax : GOALIE_SKATER_DAMPEN_MAX = 1/10 := rfl
  have habs : |light_goalie_dampener weighted_sv| ≤ 1/10 := by
    rcases weighted_sv with _ | v
    · simp [light_goalie_dampener]
    · simp only [light_goalie_dampener]
      split_ifs with h
      · norm_num
      · rw [abs_le]
        unfold clamp GOALIE_SKATER_DAMPEN_MAX
        constructor
        · exact le_max_left _ _
        · exact max_le (by norm_num) (min_le_left _ _)
  refine ⟨hmax ▸ habs, ?_, ?_, ?_, ?_⟩
  · intro h; subst h; rfl
  · intro v hv h; subst hv
    simp [light_goalie_dampener, h]
  · have := (abs_le.mp habs).1; linarith
  · have := (abs_le.mp habs).2; linarith

/-- Witness for `light_goalie_dampener_bounded` at `sv = -1`. -/
theorem light_goalie_dampener_bounded_witness :
    light_goalie_dampener (some (-1)) = 0 :=
  (light_goalie_dampener_bounded (some (-1))).2.2.1 (-1) rfl (Or.inl (by norm_num))

end AdpNhl
